import Mathlib

/-!
Verification of the B2B lead-scoring service (shallow embedding).

Sources embedded here:
- src/api/app/model.py: LeadScoringModel._get_feature_names,
  LeadScoringModel.preprocess_features, LeadScoringModel.predict
- src/api/routes/scoring.py: score_lead, score_leads_batch
- src/api/schemas/lead_features.py: LeadFeatures.validate_rate
- src/api/app/datalake.py: S3DataLakeWriter, AzureDataLakeWriter,
  NoOpDataLakeWriter, write_scoring_result
- src/api/app/endpoint_client.py: SageMakerEndpointClient.health_check,
  AzureMLEndpointClient.health_check

Convention: Python floats are modelled as rationals, Python dicts of
features as association lists with first-match lookup, and Python code
that may raise as values of `Except String`.
-/

/-- The 50 feature names, in declared order, from
`LeadScoringModel._get_feature_names` (src/api/app/model.py lines 96-154). -/
def featureNames : List String :=
  [ "company_revenue"
  , "company_employee_count"
  , "company_age_years"
  , "company_funding_total"
  , "company_growth_rate"
  , "industry_tech_score"
  , "geographic_tier"
  , "company_public_status"
  , "parent_company_exists"
  , "subsidiary_count"
  , "website_visits_30d"
  , "page_views_30d"
  , "avg_session_duration_sec"
  , "bounce_rate"
  , "pricing_page_visits"
  , "demo_page_visits"
  , "documentation_views"
  , "email_open_rate"
  , "email_click_rate"
  , "emails_received"
  , "whitepaper_downloads"
  , "webinar_attendance"
  , "social_media_engagement"
  , "customer_success_interactions"
  , "support_ticket_count"
  , "days_since_first_touch"
  , "days_since_last_touch"
  , "total_touchpoints"
  , "multi_channel_engagement"
  , "decision_maker_contacted"
  , "champion_identified"
  , "budget_confirmed"
  , "timeline_confirmed"
  , "competitor_evaluation"
  , "technical_evaluation_started"
  , "contract_reviewed"
  , "security_questionnaire_completed"
  , "roi_calculator_used"
  , "custom_demo_requested"
  , "integration_questions_asked"
  , "lead_source_quality"
  , "attribution_touchpoints"
  , "paid_channel_source"
  , "referral_source"
  , "event_source"
  , "product_tier_interest"
  , "feature_requests_count"
  , "use_case_alignment"
  , "integration_requirements"
  , "deployment_preference" ]

/-- Model of Python `dict.get` over a feature mapping represented as an
association list (first match wins). -/
def dictGet (m : List (String × ℚ)) (k : String) : Option ℚ :=
  match m with
  | [] => none
  | p :: rest => if p.1 = k then some p.2 else dictGet rest k

/-- The loop body of `LeadScoringModel.preprocess_features`
(src/api/app/model.py lines 352-361): walk the feature names in declared
order, look each one up, and raise `ValueError` on the first missing one. -/
def preprocessGo (m : List (String × ℚ)) : List String → Except String (List ℚ)
  | [] => Except.ok []
  | n :: rest =>
    match dictGet m n with
    | none => Except.error ("Missing required feature: " ++ n)
    | some v =>
      match preprocessGo m rest with
      | Except.error e => Except.error e
      | Except.ok vs => Except.ok (v :: vs)

/-- `LeadScoringModel.preprocess_features`: convert a feature dict to a
vector in the fixed declared feature order. -/
def preprocessFeatures (m : List (String × ℚ)) : Except String (List ℚ) :=
  preprocessGo m featureNames

/-- Confidence computed inside `LeadScoringModel.predict`
(src/api/app/model.py line 390): `confidence = abs(2 * score - 1)`. -/
def confidenceOf (score : ℚ) : ℚ := |2 * score - 1|

/-- Tier determination inside `LeadScoringModel.predict`
(src/api/app/model.py lines 392-398). -/
def tierOf (score : ℚ) : String :=
  if 7/10 ≤ score then "hot"
  else if 4/10 ≤ score then "warm"
  else "cold"

/-- The value `LeadScoringModel.predict` returns on success
(src/api/app/model.py line 425): the triple `(score, confidence, tier)`. -/
def predictTriple (score : ℚ) : ℚ × ℚ × String :=
  (score, confidenceOf score, tierOf score)

/-- A Python runtime value appearing in a returned tuple: either a float
(modelled as a rational) or a string. -/
inductive PyVal where
  | num (q : ℚ)
  | str (s : String)
deriving DecidableEq, Repr

/-- `LeadScoringModel.predict`'s successful return value seen as a Python
tuple of runtime values, i.e. as a length-3 sequence. -/
def predictValues (score : ℚ) : List PyVal :=
  [PyVal.num score, PyVal.num (confidenceOf score), PyVal.str (tierOf score)]

/-- Python tuple unpacking into four names: succeeds exactly on a
length-4 sequence, raises `ValueError` otherwise. -/
def unpack4 {α : Type} (xs : List α) : Option (α × α × α × α) :=
  match xs with
  | [a, b, c, d] => some (a, b, c, d)
  | _ => none

/-- `LeadScoringModel.predict` for the Local backend, parameterised by the
booster (the in-process XGBoost model, an opaque function from the feature
vector to a raw score): preprocess the features, then return the 3-tuple of
runtime values built at src/api/app/model.py lines 387-425. -/
def modelPredict (booster : List ℚ → ℚ) (features : List (String × ℚ)) :
    Except String (List PyVal) :=
  match preprocessFeatures features with
  | Except.error e => Except.error e
  | Except.ok vec => Except.ok (predictValues (booster vec))

/-- The call site view of `model.predict(...)` in the routes
(src/api/routes/scoring.py lines 90 and 175): the returned tuple is
unpacked into the four names `raw_score, bucket, tier, latency_ms`. -/
def routePredict (booster : List ℚ → ℚ) (features : List (String × ℚ)) :
    Except String (PyVal × PyVal × PyVal × PyVal) :=
  match modelPredict booster features with
  | Except.error e => Except.error e
  | Except.ok vals =>
    match unpack4 vals with
    | some t => Except.ok t
    | none => Except.error "not enough values to unpack (expected 4, got 3)"

/-- `score_lead` (src/api/routes/scoring.py lines 72-139) reduced to its
scoring path: any exception is caught and re-raised as an HTTP 500 whose
detail is `"Error scoring lead: {str(e)}"`. -/
def scoreLeadSingle (booster : List ℚ → ℚ) (features : List (String × ℚ)) :
    Except String (PyVal × PyVal × PyVal × PyVal) :=
  match routePredict booster features with
  | Except.ok t => Except.ok t
  | Except.error e => Except.error ("Error scoring lead: " ++ e)

/-- A fully populated feature mapping: every schema field mapped to 1. -/
def sampleFeatures : List (String × ℚ) :=
  featureNames.map (fun n => (n, (1 : ℚ)))

/-- `sampleFeatures` with the `bounce_rate` entry removed. -/
def sampleFeaturesNoBounce : List (String × ℚ) :=
  sampleFeatures.filter (fun p => !(p.1 == "bounce_rate"))

/-- One request of the batch operation: `ScoringRequest` restricted to the
fields the scoring path uses (src/api/schemas/lead_features.py lines
154-158), with `features` already dumped to a mapping. -/
structure BatchReq where
  leadId : String
  features : List (String × ℚ)
deriving DecidableEq, Repr

/-- One successful per-lead response as assembled by
`build_scoring_response` (src/api/routes/scoring.py lines 31-61), keeping
the four values unpacked from `model.predict`. -/
structure BatchItemOk where
  leadId : String
  rawScore : PyVal
  bucket : PyVal
  tier : PyVal
  latencyMs : PyVal
deriving DecidableEq, Repr

/-- The argument record of one scheduled `write_scoring_result` background
task (src/api/routes/scoring.py lines 191-200). -/
structure TaskRec where
  leadId : String
  bucket : PyVal
  tier : PyVal
  rawScore : PyVal
  timestamp : String
  features : List (String × ℚ)
deriving DecidableEq, Repr

/-- Outcome of the batch route `score_leads_batch`: an HTTP 400 raised by
the size guard, an HTTP 500 raised from the `except` clause, or the list of
responses together with the scheduled persistence tasks. -/
inductive BatchResult where
  | rejected (detail : String)
  | serverError (detail : String)
  | ok (responses : List BatchItemOk) (tasks : List TaskRec)
deriving DecidableEq, Repr

/-- The `for req in requests` loop of `score_leads_batch`
(src/api/routes/scoring.py lines 172-200), parameterised by the call-site
view of `model.predict` (`pr`) and by the batch timestamp `ts` captured
once before the loop.  The first exception aborts the loop. -/
def scoreBatchLoop
    (pr : List (String × ℚ) → Except String (PyVal × PyVal × PyVal × PyVal))
    (ts : String) : List BatchReq → Except String (List BatchItemOk × List TaskRec)
  | [] => Except.ok ([], [])
  | r :: rest =>
    match pr r.features with
    | Except.error e => Except.error e
    | Except.ok (s, b, t, lat) =>
      match scoreBatchLoop pr ts rest with
      | Except.error e => Except.error e
      | Except.ok (resps, tasks) =>
        Except.ok (⟨r.leadId, s, b, t, lat⟩ :: resps,
                   ⟨r.leadId, b, t, s, ts, r.features⟩ :: tasks)

/-- `score_leads_batch` (src/api/routes/scoring.py lines 150-211): reject
batches larger than 100 up front with HTTP 400, otherwise run the loop and
convert any exception into an HTTP 500 with detail
`"Error in batch scoring: {str(e)}"`. -/
def scoreLeadsBatch
    (pr : List (String × ℚ) → Except String (PyVal × PyVal × PyVal × PyVal))
    (ts : String) (reqs : List BatchReq) : BatchResult :=
  if reqs.length > 100 then BatchResult.rejected "Maximum 100 leads per batch request"
  else
    match scoreBatchLoop pr ts reqs with
    | Except.error e => BatchResult.serverError ("Error in batch scoring: " ++ e)
    | Except.ok (resps, tasks) => BatchResult.ok resps tasks

/-- `LeadFeatures.validate_rate` (src/api/schemas/lead_features.py lines
145-151), the field validator applied to `bounce_rate`, `email_open_rate`
and `email_click_rate`; the declared `Field(..., ge=0, le=1)` bound on
these fields enforces the same predicate. -/
def validateRate (v : ℚ) : Except String ℚ :=
  if 0 ≤ v ∧ v ≤ 1 then Except.ok v
  else Except.error "Rate must be between 0 and 1"

/-- The keyword arguments of `DataLakeWriter.write_result`
(src/api/app/datalake.py lines 17-29), features omitted. -/
structure ScoringRecord where
  leadId : String
  bucket : Int
  tier : String
  rawScore : ℚ
  modelVersion : String
  timestamp : String
deriving DecidableEq, Repr

/-- `S3DataLakeWriter.write_result` (src/api/app/datalake.py lines 71-83):
the placeholder writer is disabled and unconditionally returns `False`. -/
def s3WriteResult (_r : ScoringRecord) : Bool := false

/-- `AzureDataLakeWriter.write_result` (src/api/app/datalake.py lines
125-137): the placeholder writer unconditionally returns `False`. -/
def azureWriteResult (_r : ScoringRecord) : Bool := false

/-- `NoOpDataLakeWriter.write_result` (src/api/app/datalake.py lines
148-160): unconditionally returns `True`. -/
def noopWriteResult (_r : ScoringRecord) : Bool := true

/-- `write_scoring_result` (src/api/app/datalake.py lines 193-221): the
`try` block resolves the writer and calls its `write_result`; `attempt` is
the outcome of that block (a boolean, or the message of a raised
exception).  The `except` clause converts any exception into `False`. -/
def writeScoringResult (attempt : Except String Bool) : Bool :=
  match attempt with
  | Except.ok b => b
  | Except.error _ => false

/-- `SageMakerEndpointClient.health_check` (src/api/app/endpoint_client.py
lines 82-100): `probe` is the outcome of the `describe_endpoint` call (the
endpoint status string, or the message of a raised exception); healthy
means status `"InService"`, and any exception yields `False`. -/
def sagemakerHealthCheck (probe : Except String String) : Bool :=
  match probe with
  | Except.ok status => status == "InService"
  | Except.error _ => false

/-- `AzureMLEndpointClient.health_check` (src/api/app/endpoint_client.py
lines 169-188): `probe` is the outcome of the GET request (its HTTP status
code, or the message of a raised exception); healthy means status code
200, and any exception yields `False`. -/
def azureMLHealthCheck (probe : Except String Nat) : Bool :=
  match probe with
  | Except.ok code => code == 200
  | Except.error _ => false

/-- The fields of a parsed Python `datetime` that key generation reads. -/
structure PyDatetime where
  year : Nat
  month : Nat
  day : Nat
  hour : Nat
  minute : Nat
  second : Nat
  microsecond : Nat
deriving DecidableEq, Repr

/-- The decimal digit character for `n % 10`. -/
def digitChar (n : Nat) : Char := Char.ofNat (48 + n % 10)

/-- Decimal digits of a natural number, most significant first: the model
of Python `%d` formatting. -/
def natDigits (n : Nat) : List Char :=
  if _h : n < 10 then [digitChar n]
  else natDigits (n / 10) ++ [digitChar n]
decreasing_by exact Nat.div_lt_self (by omega) (by omega)

/-- Zero-fill to width `w`: the model of Python `%0wd` formatting, as used
by `f"{dt.year:04d}"` and friends. -/
def padDigits (w n : Nat) : List Char :=
  List.replicate (w - (natDigits n).length) '0' ++ natDigits n

/-- String form of `padDigits`. -/
def padZeros (w n : Nat) : String := String.mk (padDigits w n)

/-- `dt.strftime("%H%M%S%f")`: hour, minute and second zero-padded to two
digits followed by the microsecond zero-padded to six digits. -/
def strftimeHMSf (dt : PyDatetime) : String :=
  padZeros 2 dt.hour ++ padZeros 2 dt.minute ++ padZeros 2 dt.second
    ++ padZeros 6 dt.microsecond

/-- `S3DataLakeWriter._generate_key` (src/api/app/datalake.py lines 60-69),
applied to an already-parsed timestamp. -/
def s3GenerateKey (pfx leadId : String) (dt : PyDatetime) : String :=
  pfx ++ "/year=" ++ padZeros 4 dt.year ++ "/month=" ++ padZeros 2 dt.month
    ++ "/day=" ++ padZeros 2 dt.day ++ "/" ++ leadId ++ "_"
    ++ strftimeHMSf dt ++ ".json"

/-- `AzureDataLakeWriter._generate_path` (src/api/app/datalake.py lines
114-123), applied to an already-parsed timestamp; textually the same
format string as the S3 key. -/
def azureGeneratePath (pfx leadId : String) (dt : PyDatetime) : String :=
  pfx ++ "/year=" ++ padZeros 4 dt.year ++ "/month=" ++ padZeros 2 dt.month
    ++ "/day=" ++ padZeros 2 dt.day ++ "/" ++ leadId ++ "_"
    ++ strftimeHMSf dt ++ ".json"

/-- A decimal field of width exactly `w`, written independently of the
code's `%0wd` formatting: the last `w` digits of `10 ^ w + n`.  Used to
state the spec's key pattern. -/
def fixedWidth (w n : Nat) : String := String.mk ((natDigits (10 ^ w + n)).drop 1)

/-- The spec's result-sink object key, following its words:
`<prefix>/year=YYYY/month=MM/day=DD/<lead_id>_<HHMMSSssssss>.json` with a
four-digit year, two-digit month, day, hour, minute and second, and a
six-digit microsecond field. -/
def specObjectKey (pfx leadId : String) (dt : PyDatetime) : String :=
  pfx ++ "/year=" ++ fixedWidth 4 dt.year ++ "/month=" ++ fixedWidth 2 dt.month
    ++ "/day=" ++ fixedWidth 2 dt.day ++ "/" ++ leadId ++ "_"
    ++ fixedWidth 2 dt.hour ++ fixedWidth 2 dt.minute ++ fixedWidth 2 dt.second
    ++ fixedWidth 6 dt.microsecond ++ ".json"

/-- A call-site predict stub that always succeeds with a fixed 4-tuple,
used to exercise the batch loop on its success path. -/
def prWitness : List (String × ℚ) → Except String (PyVal × PyVal × PyVal × PyVal) :=
  fun _ => Except.ok (PyVal.num (1/2), PyVal.num 3, PyVal.str "C", PyVal.num 1)

/-- A two-request batch. -/
def reqsWitness : List BatchReq := [⟨"lead-a", []⟩, ⟨"lead-b", []⟩]

/-- The responses the batch loop produces for `reqsWitness` under
`prWitness`. -/
def respsWitness : List BatchItemOk :=
  [⟨"lead-a", PyVal.num (1/2), PyVal.num 3, PyVal.str "C", PyVal.num 1⟩,
   ⟨"lead-b", PyVal.num (1/2), PyVal.num 3, PyVal.str "C", PyVal.num 1⟩]

/-- The persistence tasks the batch loop schedules for `reqsWitness` under
`prWitness` with batch timestamp `"T"`. -/
def tasksWitness : List TaskRec :=
  [⟨"lead-a", PyVal.num 3, PyVal.str "C", PyVal.num (1/2), "T", []⟩,
   ⟨"lead-b", PyVal.num 3, PyVal.str "C", PyVal.num (1/2), "T", []⟩]

/-- C6: the result-sink entry point `write_scoring_result` never raises —
any internal failure is caught and reported as `false`, a completed write
reports the writer's boolean — and the NoOp writer's `write_result` always
returns `true` while the S3 and Azure placeholder writers' `write_result`
always return `false`. -/
theorem C6_result_sink_non_throwing :
    (∀ e : String, writeScoringResult (Except.error e) = false) ∧
    (∀ b : Bool, writeScoringResult (Except.ok b) = b) ∧
    (∀ r : ScoringRecord, noopWriteResult r = true) ∧
    (∀ r : ScoringRecord, s3WriteResult r = false) ∧
    (∀ r : ScoringRecord, azureWriteResult r = false) :=
  ⟨fun _ => rfl, fun _ => rfl, fun _ => rfl, fun _ => rfl, fun _ => rfl⟩

/-- C7: both remote-backend health checks return a boolean and never
raise: every probe failure (including an unreachable endpoint) yields
`false`; a completed probe yields `true` exactly for SageMaker status
`"InService"` respectively HTTP status code 200. -/
theorem C7_health_check_never_raises :
    (∀ e : String, sagemakerHealthCheck (Except.error e) = false) ∧
    (∀ e : String, azureMLHealthCheck (Except.error e) = false) ∧
    (∀ status : String,
      sagemakerHealthCheck (Except.ok status) = (status == "InService")) ∧
    (∀ code : Nat, azureMLHealthCheck (Except.ok code) = (code == 200)) :=
  ⟨fun _ => rfl, fun _ => rfl, fun _ => rfl, fun _ => rfl⟩

/-- C8: a rate value outside `[0,1]` is rejected by `validate_rate` with a
validation error, and a value that passes is returned unchanged — never
clamped or clipped into range. -/
theorem C8_rate_out_of_range_rejected (v : ℚ) :
    (¬ (0 ≤ v ∧ v ≤ 1) →
      validateRate v = Except.error "Rate must be between 0 and 1") ∧
    (∀ w, validateRate v = Except.ok w → w = v) := by
  constructor
  · intro h
    simp only [validateRate, if_neg h]
  · intro w hw
    by_cases h : 0 ≤ v ∧ v ≤ 1
    · simp only [validateRate, if_pos h, Except.ok.injEq] at hw
      exact hw.symm
    · simp only [validateRate, if_neg h] at hw
      exact Except.noConfusion hw

/-- Witness for C8 at the spec's example `bounce_rate = 1.5`. -/
theorem C8_witness :
    ¬ (0 ≤ (3/2 : ℚ) ∧ (3/2 : ℚ) ≤ 1) ∧
    validateRate (3/2) = Except.error "Rate must be between 0 and 1" := by
  have hv : ¬ (0 ≤ (3/2 : ℚ) ∧ (3/2 : ℚ) ≤ 1) := by norm_num
  exact ⟨hv, (C8_rate_out_of_range_rejected (3/2)).1 hv⟩

/-- C3: the score-to-tier classification inside `predict` is total over
`[0,1]` and deterministic: `hot` exactly on `[0.7, _]`, `warm` exactly on
`[0.4, 0.7)`, `cold` exactly below `0.4`; the boundaries belong to the
higher tier and the three cases are disjoint and cover `[0,1]`. -/
theorem C3_three_level_classifier (s : ℚ) (_h0 : 0 ≤ s) (_h1 : s ≤ 1) :
    (tierOf s = "hot" ↔ 7/10 ≤ s) ∧
    (tierOf s = "warm" ↔ 4/10 ≤ s ∧ s < 7/10) ∧
    (tierOf s = "cold" ↔ s < 4/10) ∧
    (tierOf s = "hot" ∨ tierOf s = "warm" ∨ tierOf s = "cold") := by
  unfold tierOf
  split_ifs with ha hb
  · refine ⟨iff_of_true rfl ha, ?_, ?_, Or.inl rfl⟩
    · exact iff_of_false (by decide) (fun h => absurd ha (not_le.mpr h.2))
    · exact iff_of_false (by decide)
        (fun hlt => absurd ha (not_le.mpr (lt_trans hlt (by norm_num))))
  · refine ⟨iff_of_false (by decide) ha,
      iff_of_true rfl ⟨hb, not_le.mp ha⟩,
      iff_of_false (by decide) (not_lt.mpr hb),
      Or.inr (Or.inl rfl)⟩
  · refine ⟨iff_of_false (by decide) ha,
      iff_of_false (by decide) (fun h => hb h.1),
      iff_of_true rfl (not_le.mp hb),
      Or.inr (Or.inr rfl)⟩

/-- Witness for C3 at the boundary 0.7 and at interior points of the other
two intervals. -/
theorem C3_witness :
    tierOf (7/10) = "hot" ∧ tierOf (2/5) = "warm" ∧ tierOf (1/5) = "cold" := by
  refine ⟨?_, ?_, ?_⟩
  · exact (C3_three_level_classifier (7/10) (by norm_num) (by norm_num)).1.mpr
      (by norm_num)
  · exact (C3_three_level_classifier (2/5) (by norm_num) (by norm_num)).2.1.mpr
      (by norm_num)
  · exact (C3_three_level_classifier (1/5) (by norm_num) (by norm_num)).2.2.1.mpr
      (by norm_num)

/-- C10: a successful `predict` returns the triple
`(score, confidence, tier)` whose second component equals `|2·score − 1|`;
for scores in `[0,1]` this confidence lies in `[0,1]`, vanishes exactly at
score `0.5`, and equals `1` exactly at scores `0` and `1`. -/
theorem C10_confidence_component (s : ℚ) (h0 : 0 ≤ s) (h1 : s ≤ 1) :
    predictTriple s = (s, |2 * s - 1|, tierOf s) ∧
    0 ≤ (predictTriple s).2.1 ∧ (predictTriple s).2.1 ≤ 1 ∧
    ((predictTriple s).2.1 = 0 ↔ s = 1/2) ∧
    ((predictTriple s).2.1 = 1 ↔ s = 0 ∨ s = 1) := by
  have hconf : (predictTriple s).2.1 = |2 * s - 1| := rfl
  refine ⟨rfl, ?_, ?_, ?_, ?_⟩
  · rw [hconf]; exact abs_nonneg _
  · rw [hconf, abs_le]; constructor <;> linarith
  · rw [hconf, abs_eq_zero]
    constructor <;> intro h <;> linarith
  · rw [hconf, abs_eq (by norm_num : (0:ℚ) ≤ 1)]
    constructor
    · rintro (h | h)
      · right; linarith
      · left; linarith
    · rintro (h | h)
      · right; linarith
      · left; linarith

/-- Witness for C10 at score 0.75. -/
theorem C10_witness :
    0 ≤ (predictTriple (3/4 : ℚ)).2.1 ∧ (predictTriple (3/4 : ℚ)).2.1 ≤ 1 ∧
    ¬ (predictTriple (3/4 : ℚ)).2.1 = 0 := by
  have h := C10_confidence_component (3/4) (by norm_num) (by norm_num)
  refine ⟨h.2.1, h.2.2.1, fun hc => ?_⟩
  have h12 := h.2.2.2.1.mp hc
  norm_num at h12

/-- Every persistence task produced by the batch loop carries the loop's
timestamp argument. -/
theorem scoreBatchLoop_timestamp
    (pr : List (String × ℚ) → Except String (PyVal × PyVal × PyVal × PyVal))
    (ts : String) :
    ∀ (reqs : List BatchReq) (resps : List BatchItemOk) (tasks : List TaskRec),
      scoreBatchLoop pr ts reqs = Except.ok (resps, tasks) →
      ∀ task ∈ tasks, task.timestamp = ts := by
  intro reqs
  induction reqs with
  | nil =>
    intro resps tasks h task hmem
    simp only [scoreBatchLoop] at h
    cases h
    exact absurd hmem (List.not_mem_nil task)
  | cons r rest ih =>
    intro resps tasks h task hmem
    simp only [scoreBatchLoop] at h
    split at h
    · exact Except.noConfusion h
    · split at h
      · exact Except.noConfusion h
      · rename_i s b t lat heq resps' tasks' hloop
        injection h with h'
        injection h' with h1 h2
        subst h1
        subst h2
        rcases List.mem_cons.mp hmem with rfl | hmem'
        · rfl
        · exact ih resps' tasks' hloop task hmem'

/-- C5: whatever the per-lead predict call does, the batch operation
captures one timestamp before its loop and every persistence task it
schedules for every entry of the batch carries that same shared timestamp
value. -/
theorem C5_batch_shared_timestamp
    (pr : List (String × ℚ) → Except String (PyVal × PyVal × PyVal × PyVal))
    (ts : String) (reqs : List BatchReq)
    (resps : List BatchItemOk) (tasks : List TaskRec)
    (h : scoreLeadsBatch pr ts reqs = BatchResult.ok resps tasks) :
    ∀ task ∈ tasks, task.timestamp = ts := by
  unfold scoreLeadsBatch at h
  split at h
  · exact BatchResult.noConfusion h
  · split at h
    · exact BatchResult.noConfusion h
    · rename_i resps' tasks' hloop
      injection h with h1 h2
      subst h1
      subst h2
      exact scoreBatchLoop_timestamp pr ts reqs resps' tasks' hloop

/-- Witness for C5: a two-lead batch under an always-succeeding predict
stub; both scheduled tasks carry the shared timestamp `"T"`. -/
theorem C5_witness :
    scoreLeadsBatch prWitness "T" reqsWitness
      = BatchResult.ok respsWitness tasksWitness ∧
    (⟨"lead-b", PyVal.num 3, PyVal.str "C", PyVal.num (1/2), "T", []⟩
      : TaskRec).timestamp = "T" := by
  have heq : scoreLeadsBatch prWitness "T" reqsWitness
      = BatchResult.ok respsWitness tasksWitness := rfl
  refine ⟨heq, ?_⟩
  refine C5_batch_shared_timestamp prWitness "T" reqsWitness respsWitness
    tasksWitness heq _ ?_
  unfold tasksWitness
  exact List.mem_cons_of_mem _ (List.mem_cons_self _ _)

/-- C1: on the Local backend with any fully valid feature set, the
single-lead scoring operation cannot return a response with a bucket in
1..5 and a tier in A..E: `LeadScoringModel.predict` returns a 3-tuple
`(score, confidence, tier)` with tier in hot/warm/cold, `score_lead`
unpacks four values from it, and the resulting `ValueError` is converted
to an HTTP 500.  At raw score 0.85 the model-side tier is `"hot"`, not
`"A"`, and no bucket exists anywhere in the value. -/
theorem C1_single_lead_has_no_bucket :
    scoreLeadSingle (fun _ => 85/100) sampleFeatures
      = Except.error
          "Error scoring lead: not enough values to unpack (expected 4, got 3)" ∧
    scoreLeadSingle (fun _ => 1/10) sampleFeatures
      = Except.error
          "Error scoring lead: not enough values to unpack (expected 4, got 3)" ∧
    modelPredict (fun _ => 85/100) sampleFeatures
      = Except.ok (predictValues (85/100)) ∧
    (predictValues (85/100)).length = 3 ∧
    tierOf (85/100) = "hot" ∧ tierOf (1/10) = "cold" := by
  refine ⟨rfl, rfl, rfl, rfl, ?_, ?_⟩
  · unfold tierOf
    rw [if_pos (by norm_num : (7:ℚ)/10 ≤ 85/100)]
  · unfold tierOf
    rw [if_neg (by norm_num : ¬ (7:ℚ)/10 ≤ 1/10),
        if_neg (by norm_num : ¬ (4:ℚ)/10 ≤ 1/10)]

/-- C4: a batch of 101 requests is rejected with the batch-too-large
client error by the guard that runs before any scoring; but a batch of one
fully valid request is not scored either — the four-name unpacking of
`model.predict`'s 3-tuple raises, the whole batch turns into an HTTP 500,
and no persistence task survives. -/
theorem C4_batch_cap_and_first_entry_failure :
    scoreLeadsBatch (routePredict (fun _ => 1/2)) "2024-01-01T00:00:00+00:00"
        (List.replicate 101 ⟨"lead-1", sampleFeatures⟩)
      = BatchResult.rejected "Maximum 100 leads per batch request" ∧
    scoreLeadsBatch (routePredict (fun _ => 1/2)) "2024-01-01T00:00:00+00:00"
        [⟨"lead-1", sampleFeatures⟩]
      = BatchResult.serverError
          "Error in batch scoring: not enough values to unpack (expected 4, got 3)" := by
  exact ⟨rfl, rfl⟩

/-- Feature lookup is insensitive to the order of the mapping's entries as
long as keys are not duplicated. -/
theorem dictGet_perm (k : String) :
    ∀ {m mP : List (String × ℚ)}, m.Perm mP → (m.map Prod.fst).Nodup →
      dictGet m k = dictGet mP k := by
  intro m mP hperm
  induction hperm with
  | nil => intro _; rfl
  | cons x h ih =>
    intro hnd
    simp only [List.map_cons, List.nodup_cons] at hnd
    simp only [dictGet]
    rw [ih hnd.2]
  | swap x y l =>
    intro hnd
    simp only [List.map_cons, List.nodup_cons, List.mem_cons] at hnd
    have hxy : y.1 ≠ x.1 := fun he => hnd.1 (Or.inl he)
    by_cases hy : y.1 = k
    · by_cases hx : x.1 = k
      · exact absurd (hy.trans hx.symm) hxy
      · simp [dictGet, hy, hx]
    · by_cases hx : x.1 = k
      · simp [dictGet, hy, hx]
      · simp [dictGet, hy, hx]
  | trans h1 h2 ih1 ih2 =>
    intro hnd
    rw [ih1 hnd, ih2 (((h1.map Prod.fst).nodup_iff).mp hnd)]

/-- The vectorizer loop only reads the mapping through `dictGet`. -/
theorem preprocessGo_congr (m mP : List (String × ℚ))
    (hget : ∀ k, dictGet m k = dictGet mP k) :
    ∀ names : List String, preprocessGo m names = preprocessGo mP names := by
  intro names
  induction names with
  | nil => rfl
  | cons n rest ih =>
    simp only [preprocessGo, hget n, ih]

/-- When every requested name is present, the vectorizer loop returns the
looked-up values in request order. -/
theorem preprocessGo_ok (m : List (String × ℚ)) :
    ∀ names : List String, (∀ n ∈ names, (dictGet m n).isSome) →
      preprocessGo m names
        = Except.ok (names.map fun n => (dictGet m n).getD 0) := by
  intro names
  induction names with
  | nil => intro _; rfl
  | cons n rest ih =>
    intro hall
    have hn := hall n (List.mem_cons_self n rest)
    cases hd : dictGet m n with
    | none => rw [hd] at hn; exact absurd hn (by simp)
    | some v =>
      simp only [preprocessGo, hd,
        ih (fun x hx => hall x (List.mem_cons_of_mem n hx)), List.map_cons]
      simp [hd]

/-- When some requested name is missing, the vectorizer loop fails naming
the first missing one in request order. -/
theorem preprocessGo_err (m : List (String × ℚ)) :
    ∀ (names : List String) (n : String),
      names.find? (fun k => (dictGet m k).isNone) = some n →
      preprocessGo m names
        = Except.error ("Missing required feature: " ++ n) := by
  intro names
  induction names with
  | nil => intro n h; exact Option.noConfusion h
  | cons k rest ih =>
    intro n h
    cases hd : dictGet m k with
    | none =>
      have hfind : List.find? (fun k => (dictGet m k).isNone) (k :: rest)
          = some k := List.find?_cons_of_pos rest (by simp [hd])
      rw [hfind, Option.some.injEq] at h
      subst h
      simp only [preprocessGo, hd]
    | some v =>
      have hfind : List.find? (fun k => (dictGet m k).isNone) (k :: rest)
          = List.find? (fun k => (dictGet m k).isNone) rest :=
        List.find?_cons_of_neg rest (by simp [hd])
      rw [hfind] at h
      simp only [preprocessGo, hd, ih n h]

/-- C2: for a mapping containing every schema field, `preprocess_features`
returns the vector of looked-up values in the fixed declared feature order
(length 50), independently of the order of the mapping's entries; for a
mapping missing at least one field it fails naming exactly the first
missing field in schema order. -/
theorem C2_vectorize (m mP : List (String × ℚ))
    (hperm : m.Perm mP) (hnd : (m.map Prod.fst).Nodup) :
    preprocessFeatures m = preprocessFeatures mP ∧
    featureNames.length = 50 ∧
    (featureNames.map fun n => (dictGet m n).getD 0).length = 50 ∧
    ((∀ n ∈ featureNames, (dictGet m n).isSome) →
      preprocessFeatures m
        = Except.ok (featureNames.map fun n => (dictGet m n).getD 0)) ∧
    (∀ n, featureNames.find? (fun k => (dictGet m k).isNone) = some n →
      preprocessFeatures m = Except.error ("Missing required feature: " ++ n)) := by
  refine ⟨?_, by decide, ?_, ?_, ?_⟩
  · exact preprocessGo_congr m mP (fun k => dictGet_perm k hperm hnd) featureNames
  · rw [List.length_map]; decide
  · exact fun hall => preprocessGo_ok m featureNames hall
  · exact fun n h => preprocessGo_err m featureNames n h

/-- Witness for C2: a fully populated mapping, its reversal, and the same
mapping with `bounce_rate` removed. -/
theorem C2_witness :
    preprocessFeatures sampleFeatures
      = preprocessFeatures sampleFeatures.reverse ∧
    preprocessFeatures sampleFeatures
      = Except.ok (featureNames.map fun n => (dictGet sampleFeatures n).getD 0) ∧
    preprocessFeatures sampleFeaturesNoBounce
      = Except.error ("Missing required feature: " ++ "bounce_rate") := by
  have h1 := C2_vectorize sampleFeatures sampleFeatures.reverse
    (List.reverse_perm sampleFeatures).symm (by decide)
  have h2 := C2_vectorize sampleFeaturesNoBounce sampleFeaturesNoBounce
    (List.Perm.refl _) (by decide)
  exact ⟨h1.1, h1.2.2.2.1 (by decide), h2.2.2.2.2 "bounce_rate" (by decide)⟩

/-- Unfolding `natDigits` below ten. -/
theorem natDigits_lt {n : Nat} (h : n < 10) : natDigits n = [digitChar n] := by
  rw [natDigits, dif_pos h]

/-- Unfolding `natDigits` at or above ten. -/
theorem natDigits_ge {n : Nat} (h : ¬ n < 10) :
    natDigits n = natDigits (n / 10) ++ [digitChar n] := by
  rw [natDigits]; rw [dif_neg h]

/-- Zero-filling one column wider peels off the last digit. -/
theorem padDigits_succ (w n : Nat) (hw : 1 ≤ w) :
    padDigits (w + 1) n = padDigits w (n / 10) ++ [digitChar n] := by
  by_cases hn : n < 10
  · obtain ⟨k, rfl⟩ : ∃ k, w = k + 1 := ⟨w - 1, by omega⟩
    have h0 : n / 10 = 0 := Nat.div_eq_of_lt hn
    rw [h0]
    unfold padDigits
    rw [natDigits_lt hn, natDigits_lt (by omega : (0:Nat) < 10)]
    have hd0 : digitChar 0 = '0' := by decide
    simp only [List.length_cons, List.length_nil, hd0, Nat.add_sub_cancel]
    rw [← List.replicate_succ' k '0']
  · unfold padDigits
    rw [natDigits_ge hn]
    simp only [List.length_append, List.length_cons, List.length_nil]
    rw [List.append_assoc]
    congr 1
    congr 1
    omega

/-- The decimal digits of `10 ^ w + n` for `n < 10 ^ w` are a leading one
followed by `n` zero-filled to width `w`. -/
theorem natDigits_pow_add :
    ∀ w n : Nat, 1 ≤ w → n < 10 ^ w →
      natDigits (10 ^ w + n) = '1' :: padDigits w n := by
  intro w
  induction w with
  | zero => intro n h; exact absurd h (by omega)
  | succ w ih =>
    intro n _ hn
    by_cases hw : w = 0
    · subst hw
      norm_num at hn ⊢
      rw [natDigits_ge (by omega : ¬ 10 + n < 10)]
      have hdiv : (10 + n) / 10 = 1 := by omega
      have hmod : digitChar (10 + n) = digitChar n := by
        unfold digitChar; congr 1; omega
      rw [hdiv, hmod, natDigits_lt (by omega : (1:Nat) < 10)]
      unfold padDigits
      rw [natDigits_lt hn]
      have h1 : digitChar 1 = '1' := by decide
      rw [h1]
      norm_num
    · have hw1 : 1 ≤ w := by omega
      have h10w : 10 ≤ 10 ^ (w + 1) := by
        calc 10 = 10 ^ 1 := (pow_one 10).symm
        _ ≤ 10 ^ (w + 1) := Nat.pow_le_pow_right (by omega) (by omega)
      rw [natDigits_ge (by omega : ¬ 10 ^ (w + 1) + n < 10)]
      have hps : (10:Nat) ^ (w + 1) = 10 ^ w * 10 := pow_succ 10 w
      have hdiv : (10 ^ (w + 1) + n) / 10 = 10 ^ w + n / 10 := by
        rw [hps]
        generalize (10:Nat) ^ w = t
        omega
      have hmod : digitChar (10 ^ (w + 1) + n) = digitChar n := by
        unfold digitChar
        congr 1
        rw [hps]
        generalize (10:Nat) ^ w = t
        omega
      have hd : n / 10 < 10 ^ w := by
        rw [hps] at hn
        generalize h10 : (10:Nat) ^ w = t at hn
        omega
      rw [hdiv, hmod, ih (n / 10) hw1 hd, padDigits_succ w n hw1]
      rfl

/-- A number below `10 ^ w` has at most `w` decimal digits. -/
theorem natDigits_length_le :
    ∀ w n : Nat, 1 ≤ w → n < 10 ^ w → (natDigits n).length ≤ w := by
  intro w
  induction w with
  | zero => intro n h; exact absurd h (by omega)
  | succ w ih =>
    intro n _ hn
    by_cases hsm : n < 10
    · rw [natDigits_lt hsm]; simp
    · have hw1 : 1 ≤ w := by
        by_contra hc
        have hw0 : w = 0 := by omega
        rw [hw0, pow_one] at hn
        omega
      have hd : n / 10 < 10 ^ w := by
        rw [pow_succ] at hn
        generalize h10 : (10:Nat) ^ w = t at hn
        omega
      rw [natDigits_ge hsm]
      simp only [List.length_append, List.length_cons, List.length_nil]
      have := ih (n / 10) hw1 hd
      omega

/-- Zero-filling a number below `10 ^ w` to width `w` yields exactly `w`
characters. -/
theorem padDigits_length (w n : Nat) (hw : 1 ≤ w) (hn : n < 10 ^ w) :
    (padDigits w n).length = w := by
  unfold padDigits
  simp only [List.length_append, List.length_replicate]
  have := natDigits_length_le w n hw hn
  omega

/-- C9: for every prefix, lead id and parsed ISO timestamp, the S3 key
generator produces exactly the spec's
`<prefix>/year=YYYY/month=MM/day=DD/<lead_id>_<HHMMSSssssss>.json` pattern
(year zero-padded to four digits, month and day to two), the Azure path
generator produces the identical string, and the padded fields have
exactly the claimed widths. -/
theorem C9_object_key_format (pfx leadId : String) (dt : PyDatetime)
    (hy : dt.year < 10 ^ 4) (hmo : dt.month < 10 ^ 2) (hd : dt.day < 10 ^ 2)
    (hh : dt.hour < 10 ^ 2) (hmi : dt.minute < 10 ^ 2) (hs : dt.second < 10 ^ 2)
    (hus : dt.microsecond < 10 ^ 6) :
    s3GenerateKey pfx leadId dt = specObjectKey pfx leadId dt ∧
    azureGeneratePath pfx leadId dt = s3GenerateKey pfx leadId dt ∧
    (padZeros 4 dt.year).length = 4 ∧
    (padZeros 2 dt.month).length = 2 ∧
    (padZeros 2 dt.day).length = 2 ∧
    (strftimeHMSf dt).length = 12 := by
  have hfw : ∀ w n : Nat, 1 ≤ w → n < 10 ^ w → fixedWidth w n = padZeros w n := by
    intro w n hw hn
    unfold fixedWidth padZeros
    rw [natDigits_pow_add w n hw hn]
    rfl
  have hlen : ∀ w n : Nat, 1 ≤ w → n < 10 ^ w → (padZeros w n).length = w := by
    intro w n hw hn
    show (padDigits w n).length = w
    exact padDigits_length w n hw hn
  refine ⟨?_, rfl, hlen 4 dt.year (by omega) hy, hlen 2 dt.month (by omega) hmo,
    hlen 2 dt.day (by omega) hd, ?_⟩
  · unfold s3GenerateKey specObjectKey strftimeHMSf
    rw [hfw 4 dt.year (by omega) hy, hfw 2 dt.month (by omega) hmo,
        hfw 2 dt.day (by omega) hd, hfw 2 dt.hour (by omega) hh,
        hfw 2 dt.minute (by omega) hmi, hfw 2 dt.second (by omega) hs,
        hfw 6 dt.microsecond (by omega) hus]
    simp only [String.append_assoc]
  · unfold strftimeHMSf
    rw [String.length_append, String.length_append, String.length_append,
        hlen 2 dt.hour (by omega) hh, hlen 2 dt.minute (by omega) hmi,
        hlen 2 dt.second (by omega) hs, hlen 6 dt.microsecond (by omega) hus]

/-- Witness for C9 at the timestamp 2024-01-15 12:34:56.789012. -/
theorem C9_witness :
    s3GenerateKey "scoring-results" "lead-1" ⟨2024, 1, 15, 12, 34, 56, 789012⟩
      = specObjectKey "scoring-results" "lead-1" ⟨2024, 1, 15, 12, 34, 56, 789012⟩ ∧
    (strftimeHMSf ⟨2024, 1, 15, 12, 34, 56, 789012⟩).length = 12 := by
  have h := C9_object_key_format "scoring-results" "lead-1"
    ⟨2024, 1, 15, 12, 34, 56, 789012⟩ (by decide) (by decide) (by decide)
    (by decide) (by decide) (by decide) (by decide)
  exact ⟨h.1, h.2.2.2.2.2⟩
